import Mathlib

/-!
Verification development for the buzzer driver of `waypoint_guide_rust`.

The embedding covers:
* `src/firmware/buzzer_pwm.rs` — the `BuzzerPwm` timer driver: state is the
  `OCR1A` compare register of `TC1` together with the cached `max` duty.
  Machine integers are modelled as `Nat` with explicit `% 2^16` (`as u16`
  casts) and `% 2^32` (u32 multiplication) where overflow can matter; Rust
  `u32::saturating_sub` coincides with truncated `Nat` subtraction; a Rust
  panic (division by zero) is modelled as `Option.none`.
* `src/drivers/buzzer.rs` — the generic `Buzzer` sequencer over an abstract
  PWM channel.  Channel calls are recorded in an event trace so that the
  interaction-sequence properties can be stated.  Per the repository's
  `SetFrequency` trait, `set_frequency` returns `Result<(), Infallible>`;
  `set_duty_cycle` (embedded-hal `SetDutyCycle`) returns `Result<(), E>` for
  the channel's error type.
-/

/-- Rust `core::convert::Infallible`: an uninhabited error type. -/
inductive Infallible : Type

/-- MCU clock in Hz (`const F_CPU: u32 = 16_000_000` in
`src/firmware/buzzer_pwm.rs`). -/
def F_CPU : Nat := 16000000

/-- State of the `BuzzerPwm` firmware driver (`src/firmware/buzzer_pwm.rs`):
the `OCR1A` compare register of `TC1` (a u16, kept `< 65536`) and the cached
maximum duty `max`.  Pin/mode registers (`PORTD`, `TCCR1B`) never change after
construction and are not touched by the claims, so they are omitted. -/
structure BuzzerPwm where
  ocr1a : Nat
  max : Nat
  deriving DecidableEq, Repr

/-- `BuzzerPwm::new`: initialises `OCR1A` to 0 and caches `max = u16::MAX`. -/
def BuzzerPwm.new : BuzzerPwm :=
  { ocr1a := 0, max := 65535 }

/-- `BuzzerPwm::set_frequency` (SetFrequency impl):
`let top = ((F_CPU / 128) / hz).saturating_sub(1) as u16;` then writes `top`
to `OCR1A` and returns `Ok(())`.  Rust u32 division by `hz = 0` panics,
modelled as `none`; `saturating_sub(1)` is `Nat` subtraction; `as u16` is
`% 65536`. -/
def BuzzerPwm.set_frequency (s : BuzzerPwm) (hz : Nat) : Option BuzzerPwm :=
  if hz = 0 then none
  else some { s with ocr1a := (F_CPU / 128 / hz - 1) % 65536 }

/-- `BuzzerPwm::max_duty_cycle`: returns the cached `max` field. -/
def BuzzerPwm.max_duty_cycle (s : BuzzerPwm) : Nat :=
  s.max

/-- `BuzzerPwm::set_duty_cycle`: writes the raw duty value (a u16) to `OCR1A`
and returns `Ok(())`. -/
def BuzzerPwm.set_duty_cycle (s : BuzzerPwm) (duty : Nat) : BuzzerPwm :=
  { s with ocr1a := duty % 65536 }

/-- Observable interactions of the `Buzzer` sequencer with its PWM channel and
delay provider (`src/drivers/buzzer.rs`). -/
inductive Event where
  | set_frequency (hz : Nat)
  | max_duty_cycle (ret : Nat)
  | set_duty_cycle (duty : Nat)
  | delay_ms (ms : Nat)
  deriving DecidableEq, Repr

/-- An abstract PWM channel with state type `σ` and duty-write error type `ε`,
the trait bound `PWM: SetDutyCycle + SetFrequency` of `Buzzer`.  Following the
repository's `SetFrequency` trait, `set_frequency` returns
`Result<(), Infallible>`; `set_duty_cycle` returns `Result<(), E)` for the
channel's embedded-hal error type.  Each mutating call returns the new state
together with its `Result`; the outer `Option` models a panic inside the
implementation (`none` = the call does not return). -/
structure PwmChannel (σ ε : Type) where
  set_frequency : σ → Nat → Option (σ × Except Infallible Unit)
  max_duty_cycle : σ → Nat
  set_duty_cycle : σ → Nat → Option (σ × Except ε Unit)

/-- The duty computation in `Buzzer::tone`:
`let duty = (u32::from(max) * (duty_percent as u32) / 100) as u16;`.
The u32 product is reduced `% 2^32` (release-mode wrap semantics) and the
`as u16` cast is `% 2^16`; the `u32::from`/`as u32` widening casts are
value-preserving. -/
def Buzzer.toneDuty (max duty_percent : Nat) : Nat :=
  max * duty_percent % 4294967296 / 100 % 65536

/-- `Buzzer::new(pwm, delay)`: issues `let _ = pwm.set_duty_cycle(0);`
(result ignored) and returns.  The result is the channel state after the call
together with the trace of channel interactions performed. -/
def Buzzer.new {σ ε : Type} (C : PwmChannel σ ε) (s : σ) :
    Option (σ × List Event) :=
  match C.set_duty_cycle s 0 with
  | none => none
  | some (s1, _) => some (s1, [Event.set_duty_cycle 0])

/-- `Buzzer::tone(frequency_hz, duty_percent, duration_ms)`:

```text
self.pwm.set_frequency(frequency_hz)?;
let max = self.pwm.max_duty_cycle();
let duty = (u32::from(max) * (duty_percent as u32) / 100) as u16;
let _ = self.pwm.set_duty_cycle(duty);
self.delay.delay_ms(duration_ms);
let _ = self.pwm.set_duty_cycle(0);
Ok(())
```

Returns the final channel state, the trace of interactions, and the
`Result<(), Infallible>` value of `tone`.  The `?` operator propagates a
`set_frequency` error immediately (no further channel calls); both
`set_duty_cycle` results are discarded (`let _ =`); the delay provider is
the infallible, stateless `DelayNs` millisecond wait, recorded as an
`Event.delay_ms` entry. -/
def Buzzer.tone {σ ε : Type} (C : PwmChannel σ ε) (s : σ)
    (frequency_hz duty_percent duration_ms : Nat) :
    Option (σ × List Event × Except Infallible Unit) :=
  match C.set_frequency s frequency_hz with
  | none => none
  | some (s1, Except.error e) =>
      some (s1, [Event.set_frequency frequency_hz], Except.error e)
  | some (s1, Except.ok ()) =>
      let max := C.max_duty_cycle s1
      let duty := Buzzer.toneDuty max duty_percent
      match C.set_duty_cycle s1 duty with
      | none => none
      | some (s2, _) =>
          match C.set_duty_cycle s2 0 with
          | none => none
          | some (s3, _) =>
              some (s3,
                [Event.set_frequency frequency_hz, Event.max_duty_cycle max,
                 Event.set_duty_cycle duty, Event.delay_ms duration_ms,
                 Event.set_duty_cycle 0],
                Except.ok ())

/-- `BuzzerPwm` seen through the abstract channel interface: this is the
instantiation `Buzzer<BuzzerPwm, BusyDelay>` used by `src/main.rs`.  Both
trait methods return `Ok(())` whenever they return at all. -/
def BuzzerPwm.channel : PwmChannel BuzzerPwm Infallible where
  set_frequency := fun s hz =>
    (BuzzerPwm.set_frequency s hz).map fun s1 => (s1, Except.ok ())
  max_duty_cycle := BuzzerPwm.max_duty_cycle
  set_duty_cycle := fun s d =>
    some (BuzzerPwm.set_duty_cycle s d, Except.ok ())

/-- States of the `BuzzerPwm` driver reachable from construction by any
sequence of `set_frequency` / `set_duty_cycle` calls. -/
inductive BuzzerPwm.Reachable : BuzzerPwm → Prop where
  | new : BuzzerPwm.Reachable BuzzerPwm.new
  | set_frequency {s s1 : BuzzerPwm} {hz : Nat} :
      BuzzerPwm.Reachable s → BuzzerPwm.set_frequency s hz = some s1 →
      BuzzerPwm.Reachable s1
  | set_duty_cycle {s : BuzzerPwm} {d : Nat} :
      BuzzerPwm.Reachable s →
      BuzzerPwm.Reachable (BuzzerPwm.set_duty_cycle s d)

/-- Helper: for a u16 `max` and `duty_percent ≤ 100` the u32 product does not
wrap and the quotient fits in a u16, so `toneDuty` is exact truncating
division. -/
theorem toneDuty_eq_div (max p : Nat) (hmax : max ≤ 65535) (hp : p ≤ 100) :
    Buzzer.toneDuty max p = max * p / 100 := by
  unfold Buzzer.toneDuty
  have h1 : max * p < 4294967296 :=
    lt_of_le_of_lt (Nat.mul_le_mul hmax hp) (by norm_num)
  have h2 : max * p / 100 ≤ max := by
    calc max * p / 100 ≤ max * 100 / 100 :=
          Nat.div_le_div_right (Nat.mul_le_mul_left max hp)
    _ = max := by omega
  rw [Nat.mod_eq_of_lt h1, Nat.mod_eq_of_lt (lt_of_le_of_lt h2 (by omega))]

/-- Claim C2 (code_bug evidence): `BuzzerPwm::set_frequency(0)` reaches the
u32 division `(F_CPU / 128) / hz` with a zero divisor and panics — there is no
guard rejecting or clamping `hz = 0` — so the operation is not total over
`hz : u32`, contrary to the claim. -/
theorem set_frequency_zero_hz_panics :
    BuzzerPwm.set_frequency BuzzerPwm.new 0 = none := rfl

/-- Claim C1 (code_bug evidence): at `hz = 1` the computed value
`F_CPU / 128 / 1 − 1 = 124999` exceeds `u16::MAX = 65535`, and the `as u16`
cast in `set_frequency` silently wraps it to `124999 % 65536 = 59463` instead
of clamping to 65535 as the claim requires. -/
theorem set_frequency_wraps_at_one_hz :
    F_CPU / 128 / 1 - 1 = 124999 ∧
    BuzzerPwm.set_frequency BuzzerPwm.new 1 =
      some { ocr1a := 59463, max := 65535 } ∧
    (59463 : Nat) ≠ min 124999 65535 := by
  refine ⟨by norm_num [F_CPU], ?_, by norm_num⟩
  simp [BuzzerPwm.set_frequency, BuzzerPwm.new, F_CPU]

/-- Claim C6: with `F_CPU = 16_000_000`, prescaler 64 and toggle factor 2
(the combined divisor 128), `set_frequency(440)` writes
`⌊16000000 / 128 / 440⌋ − 1 = 283` to the `OCR1A` compare register, from any
driver state. -/
theorem set_frequency_440_writes_283 (s : BuzzerPwm) :
    BuzzerPwm.set_frequency s 440 = some { s with ocr1a := 283 } := by
  simp [BuzzerPwm.set_frequency, F_CPU]

/-- Claim C9: the cached `max` field is `u16::MAX = 65535` at construction and
no operation ever modifies it, so `max_duty_cycle` returns 65535 in every
reachable driver state. -/
theorem max_duty_cycle_invariant (s : BuzzerPwm)
    (h : BuzzerPwm.Reachable s) :
    BuzzerPwm.max_duty_cycle s = 65535 := by
  induction h with
  | new => rfl
  | set_frequency hr hsf ih =>
      rename_i s s1 hz
      unfold BuzzerPwm.set_frequency at hsf
      split at hsf
      · exact absurd hsf (by simp)
      · cases hsf
        simpa [BuzzerPwm.max_duty_cycle] using ih
  | set_duty_cycle hr ih =>
      simpa [BuzzerPwm.max_duty_cycle, BuzzerPwm.set_duty_cycle] using ih

/-- Witness for C9: the invariant applied at the constructed driver. -/
theorem max_duty_cycle_invariant_witness :
    BuzzerPwm.max_duty_cycle BuzzerPwm.new = 65535 :=
  max_duty_cycle_invariant BuzzerPwm.new BuzzerPwm.Reachable.new

/-- Claim C3: whenever `Buzzer::tone` returns, its result is `Ok(())` — the
`Err` branch is impossible because `SetFrequency`'s error type is the
uninhabited `Infallible`, so the `?` never propagates — and the last channel
operation in its trace is `set_duty_cycle(0)`: the buzzer is silenced on
return. -/
theorem tone_silences_on_return {σ ε : Type} (C : PwmChannel σ ε) (s : σ)
    (f p d : Nat) (out : σ × List Event × Except Infallible Unit)
    (h : Buzzer.tone C s f p d = some out) :
    out.2.2 = Except.ok () ∧
    out.2.1.getLast? = some (Event.set_duty_cycle 0) := by
  unfold Buzzer.tone at h
  split at h
  · exact absurd h (by simp)
  · rename_i s1 e heq
    cases e
  · rename_i s1 heq
    dsimp only at h
    split at h
    · exact absurd h (by simp)
    · rename_i s2 r2 heq2
      split at h
      · exact absurd h (by simp)
      · rename_i s3 r3 heq3
        cases h
        exact ⟨rfl, rfl⟩

/-- Witness for C3 at the `main.rs` configuration: `tone(440, 50, 200)` on a
freshly constructed `BuzzerPwm`. -/
theorem tone_silences_on_return_witness :
    ((⟨0, 65535⟩ : BuzzerPwm),
      ([Event.set_frequency 440, Event.max_duty_cycle 65535,
        Event.set_duty_cycle 32767, Event.delay_ms 200,
        Event.set_duty_cycle 0] : List Event),
      (Except.ok () : Except Infallible Unit)).2.2 = Except.ok () ∧
    ((⟨0, 65535⟩ : BuzzerPwm),
      ([Event.set_frequency 440, Event.max_duty_cycle 65535,
        Event.set_duty_cycle 32767, Event.delay_ms 200,
        Event.set_duty_cycle 0] : List Event),
      (Except.ok () : Except Infallible Unit)).2.1.getLast? =
      some (Event.set_duty_cycle 0) :=
  tone_silences_on_return BuzzerPwm.channel BuzzerPwm.new 440 50 200 _ rfl

/-- Claim C4: when `set_frequency` succeeds (and the duty writes return),
`tone(f, 50, d)` performs exactly the sequence `set_frequency(f)`,
`max_duty_cycle()` read, `set_duty_cycle(max * 50 / 100)` (truncating
division), `delay_ms(d)`, `set_duty_cycle(0)`, in that order with no other
channel interaction. -/
theorem tone_interaction_sequence {σ ε : Type} (C : PwmChannel σ ε)
    (s s1 s2 s3 : σ) (f d : Nat) (r2 r3 : Except ε Unit)
    (hsf : C.set_frequency s f = some (s1, Except.ok ()))
    (hmax : C.max_duty_cycle s1 ≤ 65535)
    (hd1 : C.set_duty_cycle s1 (Buzzer.toneDuty (C.max_duty_cycle s1) 50) =
      some (s2, r2))
    (hd2 : C.set_duty_cycle s2 0 = some (s3, r3)) :
    Buzzer.tone C s f 50 d =
      some (s3,
        [Event.set_frequency f, Event.max_duty_cycle (C.max_duty_cycle s1),
         Event.set_duty_cycle (C.max_duty_cycle s1 * 50 / 100),
         Event.delay_ms d, Event.set_duty_cycle 0],
        Except.ok ()) := by
  have hD : Buzzer.toneDuty (C.max_duty_cycle s1) 50 =
      C.max_duty_cycle s1 * 50 / 100 :=
    toneDuty_eq_div _ _ hmax (by norm_num)
  rw [hD] at hd1
  unfold Buzzer.tone
  rw [hsf]
  dsimp only
  rw [hD, hd1]
  dsimp only
  rw [hd2]

/-- Witness for C4: `tone(440, 50, 200)` on a fresh `BuzzerPwm` produces the
full five-event interaction trace. -/
theorem tone_interaction_sequence_witness :
    Buzzer.tone BuzzerPwm.channel BuzzerPwm.new 440 50 200 =
      some ((⟨0, 65535⟩ : BuzzerPwm),
        [Event.set_frequency 440, Event.max_duty_cycle 65535,
         Event.set_duty_cycle 32767, Event.delay_ms 200,
         Event.set_duty_cycle 0],
        Except.ok ()) :=
  tone_interaction_sequence BuzzerPwm.channel BuzzerPwm.new
    ⟨283, 65535⟩ ⟨32767, 65535⟩ ⟨0, 65535⟩ 440 200
    (Except.ok ()) (Except.ok ()) rfl (by decide) rfl rfl

/-- Claim C5: for a u16 `max` and `duty_percent ≤ 100`, the duty `tone`
passes to `set_duty_cycle` is exactly the truncating integer division
`max * duty_percent / 100`; in particular `65535 * 50 / 100 = 32767`, not
32768. -/
theorem tone_duty_truncating_division (max p : Nat) (hmax : max ≤ 65535)
    (hp : p ≤ 100) :
    Buzzer.toneDuty max p = max * p / 100 ∧
    Buzzer.toneDuty 65535 50 = 32767 :=
  ⟨toneDuty_eq_div max p hmax hp, by norm_num [Buzzer.toneDuty]⟩

/-- Witness for C5 at `max = 65535`, `p = 50`. -/
theorem tone_duty_truncating_division_witness :
    Buzzer.toneDuty 65535 50 = 65535 * 50 / 100 ∧
    Buzzer.toneDuty 65535 50 = 32767 :=
  tone_duty_truncating_division 65535 50 (by norm_num) (by norm_num)

/-- Claim C7: `Buzzer::new` issues `set_duty_cycle(0)` on the channel before
returning and ignores that call's result (the conclusion holds for every
result `r`); the trace of construction is exactly the one zero-duty write, so
the first channel write observed after construction is a zero-duty write. -/
theorem new_first_write_zero_duty {σ ε : Type} (C : PwmChannel σ ε)
    (s s1 : σ) (r : Except ε Unit)
    (h : C.set_duty_cycle s 0 = some (s1, r)) :
    Buzzer.new C s = some (s1, [Event.set_duty_cycle 0]) := by
  unfold Buzzer.new
  rw [h]

/-- Witness for C7: constructing over a `BuzzerPwm` left in an arbitrary
prior state (`OCR1A = 283`). -/
theorem new_first_write_zero_duty_witness :
    Buzzer.new BuzzerPwm.channel ⟨283, 65535⟩ =
      some (⟨0, 65535⟩, [Event.set_duty_cycle 0]) :=
  new_first_write_zero_duty BuzzerPwm.channel ⟨283, 65535⟩ ⟨0, 65535⟩
    (Except.ok ()) rfl

/-- Claim C8: `set_frequency` and `set_duty_cycle` both write `OCR1A`, so a
`set_duty_cycle(d)` after a successful `set_frequency` overwrites the period
value with `d` irrespective of what was configured; consequently every
completed `Buzzer::tone` over the `BuzzerPwm` channel leaves `OCR1A = 0` and
the configured frequency is lost. -/
theorem ocr1a_shared_register_overwrite (s s1 : BuzzerPwm)
    (hz d p dur : Nat)
    (out : BuzzerPwm × List Event × Except Infallible Unit)
    (hsf : BuzzerPwm.set_frequency s hz = some s1)
    (ht : Buzzer.tone BuzzerPwm.channel s hz p dur = some out) :
    (BuzzerPwm.set_duty_cycle s1 d).ocr1a = d % 65536 ∧ out.1.ocr1a = 0 := by
  refine ⟨rfl, ?_⟩
  unfold Buzzer.tone at ht
  rw [show BuzzerPwm.channel.set_frequency s hz = some (s1, Except.ok ())
    from by simp [BuzzerPwm.channel, hsf]] at ht
  dsimp only [BuzzerPwm.channel] at ht
  cases ht
  rfl

/-- Witness for C8: `tone(440, 50, 200)` from the constructed driver state. -/
theorem ocr1a_shared_register_overwrite_witness :
    (BuzzerPwm.set_duty_cycle ⟨283, 65535⟩ 500).ocr1a = 500 % 65536 ∧
    ((⟨0, 65535⟩ : BuzzerPwm),
      ([Event.set_frequency 440, Event.max_duty_cycle 65535,
        Event.set_duty_cycle 32767, Event.delay_ms 200,
        Event.set_duty_cycle 0] : List Event),
      (Except.ok () : Except Infallible Unit)).1.ocr1a = 0 :=
  ocr1a_shared_register_overwrite BuzzerPwm.new ⟨283, 65535⟩ 440 500 50 200
    _ rfl rfl

/-- Claim C10: for every u16 `max` and `duty_percent ≤ 100`, the u32 product
in `tone` does not overflow, the computed duty is the exact quotient
`max * duty_percent / 100`, and that duty never exceeds `max`, so the `as u16`
cast is value-preserving and the duty passed to `set_duty_cycle` is at most
`max_duty_cycle`. -/
theorem tone_duty_no_overflow (max p : Nat) (hmax : max ≤ 65535)
    (hp : p ≤ 100) :
    max * p < 4294967296 ∧
    Buzzer.toneDuty max p = max * p / 100 ∧
    max * p / 100 ≤ max := by
  have h1 : max * p < 4294967296 :=
    lt_of_le_of_lt (Nat.mul_le_mul hmax hp) (by norm_num)
  have h2 : max * p / 100 ≤ max * 100 / 100 :=
    Nat.div_le_div_right (Nat.mul_le_mul_left max hp)
  exact ⟨h1, toneDuty_eq_div max p hmax hp, by omega⟩

/-- Witness for C10 at the extreme point `max = 65535`, `p = 100`. -/
theorem tone_duty_no_overflow_witness :
    65535 * 100 < 4294967296 ∧
    Buzzer.toneDuty 65535 100 = 65535 * 100 / 100 ∧
    65535 * 100 / 100 ≤ 65535 :=
  tone_duty_no_overflow 65535 100 (by norm_num) (by norm_num)
